import Mathlib

/-!
Shallow embedding of the admin-bro bootstrap module (`src/admin-bro.js`).

The module holds a built-in `defaults` options object, a process-wide
`registeredAdapters` list, and the `AdminBro` class whose constructor merges
user options over defaults (via lodash `_.merge`, which mutates its first
argument in place and merges arrays element-wise by index), builds the
resource list through a `ResourcesFactory`, and records a dashboard page.

Mutable module state (the `defaults` object and the adapter registry) is
threaded explicitly: functions that mutate it return the new state.
Opaque JavaScript values (database handles, resource handles) are modelled
as `Nat` tags; adapter classes carry their duck-typed `isAdapterFor`
capability as an `Option` of a predicate, `none` meaning the property is
missing.  `Option α` on a user-options field models an absent (undefined)
field; for the dashboard field, which the code tests for truthiness, the
explicit JavaScript `null` is a separate constructor.
-/

set_option autoImplicit false

/-- Error values thrown by the module.  The spec's taxonomy names the two
errors raised during registration `ConfigurationError` (the code throws
plain `Error` with these messages) and the resource-factory failure
`NoAdapterError`. -/
inductive AdminError where
  | ConfigurationError (msg : String)
  | NoAdapterError
  deriving DecidableEq

/-- The dashboard page value (`PageBuilder` reference in the code): either a
truthy page reference, tagged by a `Nat`, or the falsy JavaScript `null`. -/
inductive Dash where
  | nullv
  | page (tag : Nat)
  deriving DecidableEq

/-- `DefaultDashboard` required at the top of `admin-bro.js`. -/
def DefaultDashboard : Dash := .page 0

/-- Options attachable to an explicitly listed resource
(`resources[].options` in the source's jsdoc). -/
structure ResourceOpts where
  name : Option String := none
  parentName : Option String := none
  parentIcon : Option String := none
  listProperties : Option (List String) := none
  editProperties : Option (List String) := none
  showProperties : Option (List String) := none
  actions : Option (List String) := none
  deriving DecidableEq

/-- A wrapped resource object; `rid` backs the `id()` accessor. -/
structure Resource where
  rid : String
  attachedOptions : Option ResourceOpts := none
  deriving DecidableEq

/-- `BaseResource#id`. -/
def Resource.id (r : Resource) : String := r.rid

/-- An entry of the `resources` option: a bare resource handle or a handle
together with custom options. -/
inductive ResourceSpec where
  | bare (handle : Nat)
  | withOptions (handle : Nat) (opts : ResourceOpts)
  deriving DecidableEq

/-- `branding` sub-object of the built-in defaults. -/
structure Branding where
  logo : String
  companyName : String
  softwareBrothers : Bool
  deriving DecidableEq

/-- `assets` sub-object of the built-in defaults. -/
structure Assets where
  styles : List String
  scripts : List String
  deriving DecidableEq

/-- The fully populated options object: the shape of the module-level
`defaults` constant and hence of every merged options object. -/
structure AdminOptions where
  rootPath : String
  logoutPath : String
  loginPath : String
  databases : List Nat
  resources : List ResourceSpec
  branding : Branding
  dashboard : Dash
  assets : Assets
  deriving DecidableEq

/-- User-supplied `branding`: every field optional (absent = undefined). -/
structure UserBranding where
  logo : Option String := none
  companyName : Option String := none
  softwareBrothers : Option Bool := none
  deriving DecidableEq

/-- User-supplied `assets`: every field optional. -/
structure UserAssets where
  styles : Option (List String) := none
  scripts : Option (List String) := none
  deriving DecidableEq

/-- User-supplied constructor options (`AdminBroOptions`): every field
optional.  A `dashboard` of `some .nullv` models passing an explicit
JavaScript `null`. -/
structure UserOptions where
  rootPath : Option String := none
  logoutPath : Option String := none
  loginPath : Option String := none
  databases : Option (List Nat) := none
  resources : Option (List ResourceSpec) := none
  branding : Option UserBranding := none
  dashboard : Option Dash := none
  assets : Option UserAssets := none
  deriving DecidableEq

/-- The module-level `defaults` constant of `admin-bro.js`, in its pristine
state as written in the source. -/
def defaults : AdminOptions :=
  { rootPath := "/admin"
    logoutPath := "/admin/logout"
    loginPath := "/admin/login"
    databases := []
    resources := []
    branding :=
      { logo := "https://softwarebrothers.co/assets/images/software-brothers-logo-compact.svg"
        companyName := "Company Name"
        softwareBrothers := true }
    dashboard := DefaultDashboard
    assets :=
      { styles := ["/style.css"]
        scripts := ["/scripts.js"] } }

/-- Lodash `_.merge` on an array field: arrays are merged element-wise by
index (a source element overwrites the destination element at the same
index; destination elements beyond the source's length are kept).  The
elements here are opaque scalars, so the element-wise merge is positional
overwrite.  An absent source field keeps the destination. -/
def mergeArray {α : Type} (dest : List α) : Option (List α) → List α
  | none => dest
  | some src => src ++ dest.drop src.length

/-- Lodash `_.merge` restricted to the `branding` sub-object: plain-object
fields merge recursively key by key; absent source keys keep the
destination value. -/
def mergeBranding (d : Branding) : Option UserBranding → Branding
  | none => d
  | some u =>
    { logo := u.logo.getD d.logo
      companyName := u.companyName.getD d.companyName
      softwareBrothers := u.softwareBrothers.getD d.softwareBrothers }

/-- Lodash `_.merge` restricted to the `assets` sub-object. -/
def mergeAssets (d : Assets) : Option UserAssets → Assets
  | none => d
  | some u =>
    { styles := mergeArray d.styles u.styles
      scripts := mergeArray d.scripts u.scripts }

/-- The value computed by `_.merge(defaultsState, options)` at the shape of
`AdminBroOptions`: scalar fields are overwritten when the source supplies
them (including an explicit `null` dashboard, which lodash assigns), nested
plain objects merge recursively, arrays merge element-wise.  In the code
this value is also stored back into the shared `defaults` object (the merge
mutates its first argument and returns it); `AdminBro.construct` below
threads that mutation. -/
def mergeOptions (d : AdminOptions) (u : UserOptions) : AdminOptions :=
  { rootPath := u.rootPath.getD d.rootPath
    logoutPath := u.logoutPath.getD d.logoutPath
    loginPath := u.loginPath.getD d.loginPath
    databases := mergeArray d.databases u.databases
    resources := mergeArray d.resources u.resources
    branding := mergeBranding d.branding u.branding
    dashboard := u.dashboard.getD d.dashboard
    assets := mergeAssets d.assets u.assets }

/-- A `Database` adapter class as consumed by `registerAdapter`: a duck-typed
object that may or may not expose `isAdapterFor`. -/
structure DatabaseKind where
  isAdapterFor : Option (Nat → Bool)

/-- A `Resource` adapter class: may expose `isAdapterFor`; wraps a matched
database entry into its resources (one handle may yield many) and wraps a
single explicit resource handle. -/
structure ResourceKind where
  isAdapterFor : Option (Nat → Bool)
  wrapDatabase : Nat → List Resource
  wrapResource : Nat → Resource

/-- An entry of `AdminBro.registeredAdapters`: the `{ Database, Resource }`
pair pushed by `registerAdapter`. -/
structure AdapterPair where
  Database : DatabaseKind
  Resource : ResourceKind

/-- `AdminBro.registerAdapter({ Database, Resource })`.  The process-wide
`registeredAdapters` list is passed in and the (possibly updated) list is
returned alongside the call's outcome.  Mirrors the source: throw if either
argument is missing; push the pair if both expose `isAdapterFor`, else
throw. -/
def registerAdapter (registeredAdapters : List AdapterPair)
    (Database : Option DatabaseKind) (Resource : Option ResourceKind) :
    Except AdminError Unit × List AdapterPair :=
  match Database, Resource with
  | some d, some r =>
    if d.isAdapterFor.isSome && r.isAdapterFor.isSome then
      (.ok (), registeredAdapters ++ [{ Database := d, Resource := r }])
    else
      (.error (.ConfigurationError
        "Adapter elements has to be subclassess of AdminBro.BaseResource nad AdminBro.BaseDatabase"),
       registeredAdapters)
  | _, _ =>
    (.error (.ConfigurationError "Adapter has to have both Database and Resource"),
     registeredAdapters)

/-- Sequential mapping over a list in the `Except` monad, stopping (as a
JavaScript loop does) at the first thrown error. -/
def mapExcept {α β : Type} (f : α → Except AdminError β) : List α → Except AdminError (List β)
  | [] => .ok []
  | x :: xs =>
    match f x with
    | .error e => .error e
    | .ok b =>
      match mapExcept f xs with
      | .error e => .error e
      | .ok bs => .ok (b :: bs)

/-- Modelled from the spec: the Adapter Registry scan of
`ResourcesFactory` (the file `backend/utils/resources-factory.js` is not
part of the sources).  Scans the registry in registration order and selects
the first pair whose `databaseKind.isAdapterFor(entry)` returns true (a pair
whose database kind lacks the capability cannot match). -/
def matchDatabase (registry : List AdapterPair) (db : Nat) : Option AdapterPair :=
  registry.find? fun p =>
    match p.Database.isAdapterFor with
    | some f => f db
    | none => false

/-- Modelled from the spec: the registry scan for an explicit resource
handle, first pair whose resource kind recognises the handle. -/
def matchResource (registry : List AdapterPair) (handle : Nat) : Option AdapterPair :=
  registry.find? fun p =>
    match p.Resource.isAdapterFor with
    | some f => f handle
    | none => false

/-- Modelled from the spec: wrapping one `databases` entry — select the
first matching pair and wrap the entry with its resource kind, obtaining
one or more resources; `NoAdapterError` when no pair matches. -/
def wrapDatabaseEntry (registry : List AdapterPair) (db : Nat) :
    Except AdminError (List Resource) :=
  match matchDatabase registry db with
  | some p => .ok (p.Resource.wrapDatabase db)
  | none => .error .NoAdapterError

/-- Modelled from the spec: wrapping one `resources` entry — a bare handle
is wrapped by the first matching pair; a `{ resource, options }` entry is
wrapped the same way and the options are attached to the result. -/
def wrapResourceSpec (registry : List AdapterPair) :
    ResourceSpec → Except AdminError Resource
  | .bare handle =>
    match matchResource registry handle with
    | some p => .ok (p.Resource.wrapResource handle)
    | none => .error .NoAdapterError
  | .withOptions handle opts =>
    match matchResource registry handle with
    | some p => .ok { p.Resource.wrapResource handle with attachedOptions := some opts }
    | none => .error .NoAdapterError

/-- Modelled from the spec: `ResourcesFactory#buildResources({ databases,
resources })`.  All database-derived resources first (in database order),
then the explicitly listed resources (in listing order); no
de-duplication.  The factory's back-reference to the Admin Instance is not
observable here and is dropped. -/
def buildResources (registry : List AdapterPair) (databases : List Nat)
    (resources : List ResourceSpec) : Except AdminError (List Resource) :=
  match mapExcept (wrapDatabaseEntry registry) databases with
  | .error e => .error e
  | .ok dbLists =>
    match mapExcept (wrapResourceSpec registry) resources with
    | .error e => .error e
    | .ok explicit => .ok (dbLists.flatten ++ explicit)

/-- JavaScript truthiness of a dashboard value. -/
def truthyDash : Dash → Bool
  | .nullv => false
  | .page _ => true

/-- `options.dashboard || defaults.dashboard` (line 156): the raw user
field when present and truthy, otherwise the fallback. -/
def dashboardOr (userDash : Option Dash) (fallback : Dash) : Dash :=
  match userDash with
  | some d => if truthyDash d then d else fallback
  | none => fallback

/-- A constructed Admin Instance: the merged options, the resolved resource
list and the dashboard page reference. -/
structure AdminBro where
  options : AdminOptions
  resources : List Resource
  DashboardPage : Dash
  deriving DecidableEq

/-- The `AdminBro` constructor.  `defaultsState` is the current state of the
shared module-level `defaults` object and `registry` the current
`AdminBro.registeredAdapters`.  Mirrors the source line by line:
`_.merge(defaults, options)` computes the merged options and stores them
into `defaults` itself (the second component of the result is the new state
of `defaults`, which is the same object as `this.options`); the factory
builds the resource list (errors propagate uncaught, with `defaults`
already mutated); `this.DashboardPage = options.dashboard ||
defaults.dashboard` reads the raw user field and falls back on the
post-merge `defaults.dashboard`. -/
def AdminBro.construct (defaultsState : AdminOptions) (registry : List AdapterPair)
    (options : UserOptions) : Except AdminError AdminBro × AdminOptions :=
  let merged := mergeOptions defaultsState options
  match buildResources registry merged.databases merged.resources with
  | .ok res =>
    (.ok { options := merged
           resources := res
           DashboardPage := dashboardOr options.dashboard merged.dashboard },
     merged)
  | .error e => (.error e, merged)

/-- `findResource(resourceId)`: linear scan, first resource whose `id()`
equals the argument; `none` models JavaScript `undefined` from
`Array.prototype.find`. -/
def AdminBro.findResource (a : AdminBro) (resourceId : String) : Option Resource :=
  a.resources.find? fun m => m.id == resourceId

/-- Parameters handed to the Renderer collaborator by `renderLogin`. -/
structure LoginParams where
  action : Option String
  errorMessage : Option String
  deriving DecidableEq

/-- `AdminBro.renderLogin({ action, errorMessage })`: builds the external
`Renderer` on the fixed template name and the given parameters and returns
its output.  The external collaborator is abstracted as the function
argument `render`. -/
def renderLogin (render : String → LoginParams → String)
    (action errorMessage : Option String) : String :=
  render "pages/login" { action := action, errorMessage := errorMessage }

/-- A concrete registrable adapter pair (recognises handles tagged 0). -/
def mongoDatabaseKind : DatabaseKind := { isAdapterFor := some (fun db => db == 0) }

/-- Resource kind of the concrete adapter pair: a matched database yields
one wrapped collection resource; an explicit handle wraps to a resource
named after its tag. -/
def mongoResourceKind : ResourceKind :=
  { isAdapterFor := some (fun h => h == 0)
    wrapDatabase := fun _ => [{ rid := "mongo-col" }]
    wrapResource := fun h => { rid := "res-" ++ toString h } }

/-- The registered pair built from the two kinds above. -/
def mongoPair : AdapterPair :=
  { Database := mongoDatabaseKind, Resource := mongoResourceKind }

/-- A second concrete adapter pair whose kinds recognise every handle. -/
def catchAllPair : AdapterPair :=
  { Database := { isAdapterFor := some (fun _ => true) }
    Resource :=
      { isAdapterFor := some (fun _ => true)
        wrapDatabase := fun _ => [{ rid := "catch-all" }]
        wrapResource := fun h => { rid := "any-" ++ toString h } } }

/-- A successful `mapExcept` produces one output per input. -/
theorem mapExcept_ok_length {α β : Type} (f : α → Except AdminError β) :
    ∀ (l : List α) (out : List β), mapExcept f l = .ok out → out.length = l.length := by
  intro l
  induction l with
  | nil => intro out h; simp [mapExcept] at h; simp [← h]
  | cons x xs ih =>
    intro out h
    simp only [mapExcept] at h
    cases hfx : f x with
    | error e => rw [hfx] at h; simp at h
    | ok b =>
      rw [hfx] at h
      cases hxs : mapExcept f xs with
      | error e => rw [hxs] at h; simp at h
      | ok bs =>
        rw [hxs] at h
        simp only [Except.ok.injEq] at h
        subst h
        simp [ih bs hxs]

/-- A successful `mapExcept` maps the `i`-th input to the `i`-th output. -/
theorem mapExcept_ok_get {α β : Type} (f : α → Except AdminError β) :
    ∀ (l : List α) (out : List β), mapExcept f l = .ok out →
      ∀ i (h1 : i < l.length) (h2 : i < out.length),
        f (l.get ⟨i, h1⟩) = .ok (out.get ⟨i, h2⟩) := by
  intro l
  induction l with
  | nil => intro out h i h1 h2; exact absurd h1 (by simp)
  | cons x xs ih =>
    intro out h i h1 h2
    simp only [mapExcept] at h
    cases hfx : f x with
    | error e => rw [hfx] at h; simp at h
    | ok b =>
      rw [hfx] at h
      cases hxs : mapExcept f xs with
      | error e => rw [hxs] at h; simp at h
      | ok bs =>
        rw [hxs] at h
        simp only [Except.ok.injEq] at h
        subst h
        cases i with
        | zero => simpa using hfx
        | succ j =>
          exact ih bs hxs j (Nat.lt_of_succ_lt_succ h1) (Nat.lt_of_succ_lt_succ h2)

/-- When some database entry is matched by no registered pair, mapping the
database wrapper over the list throws `NoAdapterError` (every failure of
the wrapper is a `NoAdapterError`, so whichever entry fails first raises
it). -/
theorem mapExcept_wrapDatabase_error (registry : List AdapterPair) :
    ∀ (l : List Nat), (∃ db ∈ l, matchDatabase registry db = none) →
      mapExcept (wrapDatabaseEntry registry) l = .error .NoAdapterError := by
  intro l
  induction l with
  | nil => rintro ⟨db, hmem, _⟩; exact absurd hmem (by simp)
  | cons x xs ih =>
    rintro ⟨db, hmem, hnone⟩
    simp only [mapExcept]
    cases hx : matchDatabase registry x with
    | none => simp [wrapDatabaseEntry, hx]
    | some p =>
      have hdb : db ∈ xs := by
        rcases List.mem_cons.mp hmem with h | h
        · subst h; rw [hx] at hnone; exact absurd hnone (by simp)
        · exact h
      simp [wrapDatabaseEntry, hx, ih ⟨db, hdb, hnone⟩]

/-- Claim C1: the claim states that constructing two Admin Instances over
the same built-in defaults leaves the defaults unchanged and leaks no
option value from the first construction into the second.  The code does
the opposite: `_.merge(defaults, options)` mutates the shared `defaults`
object in place, so after a first construction with `rootPath: "/xyz"` the
defaults' rootPath is `"/xyz"` (no longer the pristine defaults), and a
second construction with empty options gets effective rootPath `"/xyz"`
even though neither the second user options nor the pristine defaults
supply it.  This theorem evaluates the code at that failing input. -/
theorem c1_defaults_mutated_and_leaked :
    (AdminBro.construct defaults [] { rootPath := some "/xyz" }).2.rootPath = "/xyz"
    ∧ (AdminBro.construct defaults [] { rootPath := some "/xyz" }).2 ≠ defaults
    ∧ ((AdminBro.construct
          ((AdminBro.construct defaults [] { rootPath := some "/xyz" }).2)
          [] {}).1.map (fun i => i.options.rootPath)) = Except.ok "/xyz" :=
  ⟨rfl, by decide, rfl⟩

/-- Claim C2, counterexample: the claim states that a user-supplied array
wholesale-replaces the default array, in particular that a user array
shorter than the default yields exactly the user array.  Lodash `_.merge`
merges arrays element-wise by index instead: supplying the empty `styles`
array over the default `["/style.css"]` yields `["/style.css"]`, not the
user's `[]`. -/
theorem c2_wholesale_replacement_fails :
    (mergeOptions defaults { assets := some { styles := some [] } }).assets.styles
      = ["/style.css"]
    ∧ (mergeOptions defaults { assets := some { styles := some [] } }).assets.styles
      ≠ [] :=
  ⟨rfl, by decide⟩

/-- Claim C2, amended: for every user options object that supplies an
array-valued field, the merged value of that field is the element-wise
(index-wise) merge: the user's elements followed by the default elements
beyond the user array's length.  A user array at least as long as the
default replaces it wholesale; a shorter user array keeps the default's
tail. -/
theorem c2_arrays_merge_elementwise (d : AdminOptions) (u : UserOptions) :
    (∀ ua ss, u.assets = some ua → ua.styles = some ss →
      (mergeOptions d u).assets.styles = ss ++ d.assets.styles.drop ss.length)
    ∧ (∀ ua sc, u.assets = some ua → ua.scripts = some sc →
      (mergeOptions d u).assets.scripts = sc ++ d.assets.scripts.drop sc.length)
    ∧ (∀ dbs, u.databases = some dbs →
      (mergeOptions d u).databases = dbs ++ d.databases.drop dbs.length)
    ∧ (∀ rs, u.resources = some rs →
      (mergeOptions d u).resources = rs ++ d.resources.drop rs.length) := by
  refine ⟨?_, ?_, ?_, ?_⟩ <;> intros <;>
    simp_all [mergeOptions, mergeAssets, mergeArray]

/-- Witness for C2's amended theorem at a concrete input: user styles
`["/a.css"]` over default styles `["/style.css"]` merges to `["/a.css"]`. -/
theorem c2_arrays_merge_elementwise_witness :
    (mergeOptions defaults { assets := some { styles := some ["/a.css"] } }).assets.styles
      = ["/a.css"] ++ defaults.assets.styles.drop (["/a.css"] : List String).length :=
  (c2_arrays_merge_elementwise defaults
      { assets := some { styles := some ["/a.css"] } }).1
    { styles := some ["/a.css"] } ["/a.css"] rfl rfl

/-- Claim C3: `registerAdapter` fails with a `ConfigurationError` and
leaves the registered-adapters list exactly as it was whenever the
`Database` argument is missing, the `Resource` argument is missing, or
either lacks `isAdapterFor`; when both are present and capable it succeeds
and appends exactly the pair at the end of the list. -/
theorem c3_registerAdapter_spec (st : List AdapterPair)
    (Database : Option DatabaseKind) (Resource : Option ResourceKind) :
    ((Database = none ∨ Resource = none
        ∨ (∃ d, Database = some d ∧ d.isAdapterFor = none)
        ∨ (∃ r, Resource = some r ∧ r.isAdapterFor = none)) →
      (∃ msg, (registerAdapter st Database Resource).1
          = .error (.ConfigurationError msg))
      ∧ (registerAdapter st Database Resource).2 = st)
    ∧ (∀ d r, Database = some d → Resource = some r →
        d.isAdapterFor.isSome = true → r.isAdapterFor.isSome = true →
        (registerAdapter st Database Resource).1 = .ok ()
        ∧ (registerAdapter st Database Resource).2
            = st ++ [{ Database := d, Resource := r }]) := by
  constructor
  · intro h
    rcases Database with _ | d
    · exact ⟨⟨_, rfl⟩, rfl⟩
    · rcases Resource with _ | r
      · exact ⟨⟨_, rfl⟩, rfl⟩
      · have hnone : d.isAdapterFor = none ∨ r.isAdapterFor = none := by
          rcases h with h | h | ⟨d', hd, h⟩ | ⟨r', hr, h⟩
          · exact absurd h (by simp)
          · exact absurd h (by simp)
          · exact Or.inl (by injection hd with hd; exact hd ▸ h)
          · exact Or.inr (by injection hr with hr; exact hr ▸ h)
        rcases hnone with h1 | h1 <;>
          simp [registerAdapter, h1]
  · intro d r hd hr h1 h2
    subst hd; subst hr
    simp [registerAdapter, h1, h2]

/-- Witness for C3 at a concrete input: registering the concrete capable
pair on the empty registry succeeds and appends exactly that pair. -/
theorem c3_registerAdapter_spec_witness :
    (registerAdapter [] (some mongoDatabaseKind) (some mongoResourceKind)).1 = .ok ()
    ∧ (registerAdapter [] (some mongoDatabaseKind) (some mongoResourceKind)).2
        = [] ++ [{ Database := mongoDatabaseKind, Resource := mongoResourceKind }] :=
  (c3_registerAdapter_spec [] (some mongoDatabaseKind) (some mongoResourceKind)).2
    mongoDatabaseKind mongoResourceKind rfl rfl rfl rfl

/-- Claim C4: with valid pairs registered in order `[A, B]` and a database
handle recognised by both pairs' database kinds, the factory scan selects
pair `A` — first-registered-wins — and building from that single database
yields exactly `A`'s wrapping of the handle. -/
theorem c4_first_registered_wins (A B : AdapterPair) (db : Nat) (fA fB : Nat → Bool)
    (hA : A.Database.isAdapterFor = some fA) (_hB : B.Database.isAdapterFor = some fB)
    (hfA : fA db = true) (_hfB : fB db = true) :
    matchDatabase [A, B] db = some A
    ∧ buildResources [A, B] [db] [] = .ok (A.Resource.wrapDatabase db) := by
  have hmatch : matchDatabase [A, B] db = some A := by
    simp [matchDatabase, List.find?, hA, hfA]
  refine ⟨hmatch, ?_⟩
  simp [buildResources, mapExcept, wrapDatabaseEntry, hmatch]

/-- Witness for C4: both concrete pairs recognise handle `0`; the scan
over `[mongoPair, catchAllPair]` selects `mongoPair`. -/
theorem c4_first_registered_wins_witness :
    matchDatabase [mongoPair, catchAllPair] 0 = some mongoPair
    ∧ buildResources [mongoPair, catchAllPair] [0] []
        = .ok (mongoPair.Resource.wrapDatabase 0) :=
  c4_first_registered_wins mongoPair catchAllPair 0 (fun db => db == 0) (fun _ => true)
    rfl rfl rfl rfl

/-- Claim C5: whenever resource building succeeds, the resulting list is
exactly the concatenation of the database-derived resources (one block per
database, in database order, each block the adapter's yield for that
database) followed by the wrapped explicitly listed resources (one per
listing, in listing order), with no de-duplication; hence its length is
the total adapter yield over the databases plus the number of explicit
resources. -/
theorem c5_resource_list_shape (registry : List AdapterPair) (databases : List Nat)
    (resources : List ResourceSpec) (res : List Resource)
    (h : buildResources registry databases resources = .ok res) :
    ∃ dbLists explicit,
      mapExcept (wrapDatabaseEntry registry) databases = .ok dbLists
      ∧ mapExcept (wrapResourceSpec registry) resources = .ok explicit
      ∧ res = dbLists.flatten ++ explicit
      ∧ dbLists.length = databases.length
      ∧ explicit.length = resources.length
      ∧ (∀ i (h1 : i < databases.length) (h2 : i < dbLists.length),
          wrapDatabaseEntry registry (databases.get ⟨i, h1⟩)
            = .ok (dbLists.get ⟨i, h2⟩))
      ∧ (∀ i (h1 : i < resources.length) (h2 : i < explicit.length),
          wrapResourceSpec registry (resources.get ⟨i, h1⟩)
            = .ok (explicit.get ⟨i, h2⟩))
      ∧ res.length = (dbLists.map List.length).sum + resources.length := by
  unfold buildResources at h
  cases hdb : mapExcept (wrapDatabaseEntry registry) databases with
  | error e => rw [hdb] at h; simp at h
  | ok dbLists =>
    rw [hdb] at h
    cases hex : mapExcept (wrapResourceSpec registry) resources with
    | error e => rw [hex] at h; simp at h
    | ok explicit =>
      rw [hex] at h
      simp only [Except.ok.injEq] at h
      subst h
      refine ⟨dbLists, explicit, rfl, rfl, rfl,
        mapExcept_ok_length _ _ _ hdb,
        mapExcept_ok_length _ _ _ hex,
        mapExcept_ok_get _ _ _ hdb,
        mapExcept_ok_get _ _ _ hex, ?_⟩
      simp [List.length_append, List.length_flatten, mapExcept_ok_length _ _ _ hex]

/-- Witness for C5: one recognised database (yielding one resource) and
two explicit resource listings give a list of length three in the stated
order. -/
theorem c5_resource_list_shape_witness :
    ∃ dbLists explicit,
      mapExcept (wrapDatabaseEntry [mongoPair]) [0] = .ok dbLists
      ∧ mapExcept (wrapResourceSpec [mongoPair]) [.bare 0, .bare 0] = .ok explicit
      ∧ [{ rid := "mongo-col" }, { rid := "res-0" }, { rid := "res-0" }]
          = dbLists.flatten ++ explicit
      ∧ dbLists.length = ([0] : List Nat).length
      ∧ explicit.length = ([.bare 0, .bare 0] : List ResourceSpec).length
      ∧ (∀ i (h1 : i < ([0] : List Nat).length) (h2 : i < dbLists.length),
          wrapDatabaseEntry [mongoPair] (([0] : List Nat).get ⟨i, h1⟩)
            = .ok (dbLists.get ⟨i, h2⟩))
      ∧ (∀ i (h1 : i < ([.bare 0, .bare 0] : List ResourceSpec).length)
            (h2 : i < explicit.length),
          wrapResourceSpec [mongoPair]
              (([.bare 0, .bare 0] : List ResourceSpec).get ⟨i, h1⟩)
            = .ok (explicit.get ⟨i, h2⟩))
      ∧ ([{ rid := "mongo-col" }, { rid := "res-0" }, { rid := "res-0" }]
            : List Resource).length
          = (dbLists.map List.length).sum + ([.bare 0, .bare 0] : List ResourceSpec).length :=
  c5_resource_list_shape [mongoPair] [0] [.bare 0, .bare 0]
    [{ rid := "mongo-col" }, { rid := "res-0" }, { rid := "res-0" }] rfl

/-- Claim C7: the constructor introduces no failure of its own — it fails
with exactly the error thrown by the resource factory on the merged
options, and whenever some merged database entry is matched by no
registered pair, construction fails with `NoAdapterError`. -/
theorem c7_constructor_propagates (st : AdminOptions) (registry : List AdapterPair)
    (u : UserOptions) :
    (∀ e, (AdminBro.construct st registry u).1 = .error e ↔
        buildResources registry (mergeOptions st u).databases
          (mergeOptions st u).resources = .error e)
    ∧ ((∃ db ∈ (mergeOptions st u).databases, matchDatabase registry db = none) →
        (AdminBro.construct st registry u).1 = .error .NoAdapterError) := by
  constructor
  · intro e
    simp only [AdminBro.construct]
    cases hb : buildResources registry (mergeOptions st u).databases
        (mergeOptions st u).resources with
    | error e2 => simp [hb]
    | ok res => simp [hb]
  · intro ⟨db, hmem, hnone⟩
    have herr : buildResources registry (mergeOptions st u).databases
        (mergeOptions st u).resources = .error .NoAdapterError := by
      unfold buildResources
      rw [mapExcept_wrapDatabase_error registry _ ⟨db, hmem, hnone⟩]
    simp only [AdminBro.construct]
    rw [herr]

/-- Witness for C7: an empty registry and user options with one database
entry make construction fail with `NoAdapterError`. -/
theorem c7_constructor_propagates_witness :
    (AdminBro.construct defaults [] { databases := some [5] }).1
      = .error .NoAdapterError :=
  (c7_constructor_propagates defaults [] { databases := some [5] }).2
    ⟨5, by decide, rfl⟩

/-- Helper: `List.find?` returns the head of the first matching suffix when
everything before it fails the predicate. -/
theorem findFirstMatch {α : Type} (p : α → Bool) :
    ∀ (l1 : List α) (r : α) (l2 : List α), p r = true →
      (∀ x ∈ l1, p x = false) → (l1 ++ r :: l2).find? p = some r := by
  intro l1
  induction l1 with
  | nil =>
    intro r l2 hr _
    simp [List.find?, hr]
  | cons x xs ih =>
    intro r l2 hr hall
    have hx : p x = false := hall x (by simp)
    simp only [List.cons_append, List.find?, hx]
    exact ih r l2 hr fun y hy => hall y (by simp [hy])

/-- Claim C6: `findResource` is total (it returns an explicit `Option`):
it returns `none` exactly when no resource's `id()` equals the identifier,
any returned resource is a member whose `id()` matches, and whenever the
list splits as non-matching elements followed by a match, the first such
match is returned. -/
theorem c6_findResource_spec (a : AdminBro) (resourceId : String) :
    (a.findResource resourceId = none ↔ ∀ r ∈ a.resources, r.id ≠ resourceId)
    ∧ (∀ r, a.findResource resourceId = some r → r.id = resourceId ∧ r ∈ a.resources)
    ∧ (∀ l1 r l2, a.resources = l1 ++ r :: l2 → r.id = resourceId →
        (∀ x ∈ l1, x.id ≠ resourceId) → a.findResource resourceId = some r) := by
  refine ⟨?_, ?_, ?_⟩
  · simp [AdminBro.findResource, List.find?_eq_none]
  · intro r hr
    exact ⟨by simpa using List.find?_some hr,
      List.mem_of_find?_eq_some hr⟩
  · intro l1 r l2 hres hid hall
    unfold AdminBro.findResource
    rw [hres]
    exact findFirstMatch _ l1 r l2 (by simp [hid])
      fun x hx => by simpa using hall x hx

/-- A concrete instance holding two resources with the duplicate id `dup`
and one with id `other`. -/
def sampleAdmin : AdminBro :=
  { options := defaults
    resources :=
      [{ rid := "dup" }, { rid := "dup", attachedOptions := some {} },
       { rid := "other" }]
    DashboardPage := DefaultDashboard }

/-- Witness for C6: on the duplicate id the first match in list order is
returned. -/
theorem c6_findResource_spec_witness :
    sampleAdmin.findResource "dup" = some { rid := "dup" } :=
  (c6_findResource_spec sampleAdmin "dup").2.2 []
    { rid := "dup" } [{ rid := "dup", attachedOptions := some {} }, { rid := "other" }]
    rfl rfl (by simp)

/-- The user options of the spec's branding scenario:
`{ branding: { companyName: 'Acme' } }`. -/
def acmeOptions : UserOptions := { branding := some { companyName := some "Acme" } }

/-- Claim C8: the merged options are fully populated — every field of the
built-in defaults is present in the merge result with its default value
whenever the user omitted it (top-level fields as well as the nested
branding and assets keys) — and merging the Acme branding scenario keeps
the default logo and vendor-badge flag while taking the user company
name. -/
theorem c8_merge_fully_populated (u : UserOptions) :
    (u.rootPath = none → (mergeOptions defaults u).rootPath = defaults.rootPath)
    ∧ (u.logoutPath = none → (mergeOptions defaults u).logoutPath = defaults.logoutPath)
    ∧ (u.loginPath = none → (mergeOptions defaults u).loginPath = defaults.loginPath)
    ∧ (u.databases = none → (mergeOptions defaults u).databases = defaults.databases)
    ∧ (u.resources = none → (mergeOptions defaults u).resources = defaults.resources)
    ∧ (u.dashboard = none → (mergeOptions defaults u).dashboard = DefaultDashboard)
    ∧ (u.branding = none → (mergeOptions defaults u).branding = defaults.branding)
    ∧ (∀ b, u.branding = some b → b.logo = none →
        (mergeOptions defaults u).branding.logo = defaults.branding.logo)
    ∧ (∀ b, u.branding = some b → b.companyName = none →
        (mergeOptions defaults u).branding.companyName = defaults.branding.companyName)
    ∧ (∀ b, u.branding = some b → b.softwareBrothers = none →
        (mergeOptions defaults u).branding.softwareBrothers = true)
    ∧ (u.assets = none → (mergeOptions defaults u).assets = defaults.assets)
    ∧ (∀ ua, u.assets = some ua → ua.styles = none →
        (mergeOptions defaults u).assets.styles = defaults.assets.styles)
    ∧ (∀ ua, u.assets = some ua → ua.scripts = none →
        (mergeOptions defaults u).assets.scripts = defaults.assets.scripts)
    ∧ (mergeOptions defaults acmeOptions).branding
        = { logo := defaults.branding.logo, companyName := "Acme",
            softwareBrothers := true } := by
  refine ⟨?_, ?_, ?_, ?_, ?_, ?_, ?_, ?_, ?_, ?_, ?_, ?_, ?_, by decide⟩ <;>
    intros <;>
    simp_all [mergeOptions, mergeBranding, mergeAssets, mergeArray, defaults,
      DefaultDashboard]

/-- Witness for C8 at the Acme scenario options: omitted rootPath, logo and
vendor-badge flag keep their defaults. -/
theorem c8_merge_fully_populated_witness :
    (mergeOptions defaults acmeOptions).rootPath = defaults.rootPath
    ∧ (mergeOptions defaults acmeOptions).branding.logo = defaults.branding.logo
    ∧ (mergeOptions defaults acmeOptions).branding.softwareBrothers = true := by
  obtain ⟨h1, h2, h3, h4, h5, h6, h7, h8, h9, h10, h11, h12, h13, h14⟩ :=
    c8_merge_fully_populated acmeOptions
  exact ⟨h1 rfl, h8 { companyName := some "Acme" } rfl rfl,
    h10 { companyName := some "Acme" } rfl rfl⟩

/-- Claim C9: `renderLogin` invokes the Renderer collaborator on the fixed
template name and exactly the given action and error-message parameters,
returning the renderer's output unchanged, for every renderer and every
pair of arguments; being a function of its arguments alone it depends on
no instance or shared mutable state. -/
theorem c9_renderLogin_passthrough (render : String → LoginParams → String)
    (action errorMessage : Option String) :
    renderLogin render action errorMessage
      = render "pages/login" { action := action, errorMessage := errorMessage } := rfl

/-- Claim C10, counterexample: with a present-but-falsy dashboard option
(JavaScript `null`), construction over pristine defaults succeeds with
`DashboardPage` equal to the merged (null) dashboard, not the built-in
default dashboard — refuting the claim for falsy dashboard fields. -/
theorem c10_dashboard_falsy_counterexample :
    ((AdminBro.construct defaults [] { dashboard := some .nullv }).1.map
        (fun i => i.DashboardPage)) = Except.ok Dash.nullv
    ∧ Dash.nullv ≠ DefaultDashboard
    ∧ (mergeOptions defaults { dashboard := some .nullv }).dashboard = Dash.nullv :=
  ⟨rfl, by decide, rfl⟩

/-- Claim C10, amended: `DashboardPage` is the raw user options' dashboard
when that field is present and truthy; otherwise (absent or falsy) it
falls back on the `defaults` object's dashboard as it stands after the
merge, which is exactly the merged effective options' dashboard (the merge
mutates `defaults` in place and returns the same object).  When the user
field is absent the fallback equals the pre-construction defaults state's
dashboard, which is the built-in default dashboard exactly when that state
is pristine. -/
theorem c10_dashboard_source_amended (st : AdminOptions) (registry : List AdapterPair)
    (u : UserOptions) (inst : AdminBro)
    (h : (AdminBro.construct st registry u).1 = .ok inst) :
    (∀ n, u.dashboard = some (.page n) → inst.DashboardPage = .page n)
    ∧ ((u.dashboard = none ∨ u.dashboard = some .nullv) →
        inst.DashboardPage = (mergeOptions st u).dashboard)
    ∧ (u.dashboard = none → inst.DashboardPage = st.dashboard)
    ∧ (u.dashboard = none → st = defaults → inst.DashboardPage = DefaultDashboard) := by
  have hDP : inst.DashboardPage = dashboardOr u.dashboard (mergeOptions st u).dashboard := by
    simp only [AdminBro.construct] at h
    cases hb : buildResources registry (mergeOptions st u).databases
        (mergeOptions st u).resources with
    | error e => rw [hb] at h; simp at h
    | ok res =>
      rw [hb] at h
      simp only [Except.ok.injEq] at h
      subst h
      rfl
  refine ⟨?_, ?_, ?_, ?_⟩
  · intro n hn
    rw [hDP, hn]
    rfl
  · rintro (hn | hn) <;> rw [hDP, hn] <;> simp [dashboardOr, truthyDash]
  · intro hn
    rw [hDP, hn]
    simp [dashboardOr, mergeOptions, hn]
  · intro hn hst
    subst hst
    rw [hDP, hn]
    simp [dashboardOr, mergeOptions, hn, defaults]

/-- The instance produced by constructing over pristine defaults with empty
user options and an empty registry. -/
def emptyBuiltInstance : AdminBro :=
  { options := mergeOptions defaults {}
    resources := []
    DashboardPage := dashboardOr none (mergeOptions defaults {}).dashboard }

/-- Witness for C10's amended theorem: empty options over pristine defaults
give the built-in default dashboard. -/
theorem c10_dashboard_source_amended_witness :
    emptyBuiltInstance.DashboardPage = DefaultDashboard :=
  (c10_dashboard_source_amended defaults [] {} emptyBuiltInstance rfl).2.2.2 rfl rfl
